import Mathlib

/-!
Shallow embedding of the pi-experiments model-catalog and quota extensions.

The kilo-code provider extension (kilo-code-provider.ts and its variants)
fetches a raw model list from a gateway, normalizes each record into a
KiloModelConfig, sorts, filters, and publishes the catalog; one variant adds
a static fallback catalog on initial-load failure, another adds a free-model
predicate over the vendor pricing object.  The two quota extensions
(copilot-quota.ts and the antigravity quota extension) render quota
snapshots with threshold-based severity coloring and a 60 second expiry
timer.

JSON numbers are modelled as rationals; absent or null JSON fields as
Option.none.  JavaScript truthiness of numbers (0 is falsy) and of strings
(the empty string is falsy) is modelled explicitly.
-/

/-- Model of the TypeScript asPositiveInt: a finite number strictly greater
than 0 maps to its floor, everything else to undefined.  Note the floor of a
value in (0,1) is 0, which asPositiveInt does return. -/
def asPositiveInt (value : Option ℚ) : Option ℕ :=
  value.bind fun q => if q ≤ 0 then none else some ⌊q⌋.toNat

/-- JavaScript truthiness for an optional number: 0 and undefined are falsy. -/
def numTruthy (o : Option ℕ) : Option ℕ :=
  match o with
  | some 0 => none
  | o => o

/-- JavaScript truthiness for an optional string: the empty string and
undefined are falsy. -/
def jsStr (o : Option String) : Option String :=
  o.bind fun s => if s = "" then none else some s

/-- Model of the JavaScript String.prototype.trim call: strip leading and
trailing whitespace. -/
def jsTrim (s : String) : String :=
  String.mk
    (((s.toList.dropWhile Char.isWhitespace).reverse.dropWhile
        Char.isWhitespace).reverse)

/-- Model of the localeCompare tie-break as a non-strict lexicographic
order on code points: true when a compares no later than b. -/
def charLe (a b : List Char) : Bool :=
  match a, b with
  | [], _ => true
  | _ :: _, [] => false
  | c :: cs, d :: ds =>
    if c.toNat < d.toNat then true
    else if d.toNat < c.toNat then false
    else charLe cs ds

/-- The top_provider object of a raw gateway model record. -/
structure TopProvider where
  context_length : Option ℚ
  max_completion_tokens : Option ℚ
deriving DecidableEq, Repr

/-- The architecture object of a raw gateway model record. -/
structure Architecture where
  input_modalities : Option (List String)
deriving DecidableEq, Repr

/-- A pricing field value as it appears in the gateway JSON: either a string
or a (finite JSON) number. -/
inductive PricingValue where
  | str (s : String)
  | num (q : ℚ)
deriving DecidableEq, Repr

/-- A raw model record as delivered by the Kilo gateway (interface
KiloGatewayModel).  All fields are optional; the pricing object, present in
the part_006 variant of the extension, is a map from field name to an
optionally-defined value. -/
structure KiloGatewayModel where
  id : Option String
  name : Option String
  context_length : Option ℚ
  architecture : Option Architecture
  top_provider : Option TopProvider
  supported_parameters : Option (List String)
  preferredIndex : Option ℚ
  pricing : Option (List (String × Option PricingValue))
deriving DecidableEq, Repr

/-- A raw record with every field absent. -/
def emptyRaw : KiloGatewayModel :=
  { id := none, name := none, context_length := none, architecture := none,
    top_provider := none, supported_parameters := none, preferredIndex := none,
    pricing := none }

/-- Input modality of a normalized model. -/
inductive InputModality where
  | text
  | image
deriving DecidableEq, Repr

/-- The fixed compatibility descriptor of a normalized model. -/
structure CompatFlags where
  maxTokensField : String
  supportsDeveloperRole : Bool
  supportsReasoningEffort : Bool
  supportsUsageInStreaming : Bool
deriving DecidableEq, Repr

/-- The four-field cost vector of a normalized model. -/
structure CostVector where
  input : ℚ
  output : ℚ
  cacheRead : ℚ
  cacheWrite : ℚ
deriving DecidableEq, Repr

/-- The canonical normalized model shape (type KiloModelConfig). -/
structure KiloModelConfig where
  id : String
  name : String
  reasoning : Bool
  input : List InputModality
  cost : CostVector
  contextWindow : ℕ
  maxTokens : ℕ
  compat : CompatFlags
deriving DecidableEq, Repr

/-- DEFAULT_COMPAT from the source. -/
def DEFAULT_COMPAT : CompatFlags :=
  { maxTokensField := "max_tokens", supportsDeveloperRole := false,
    supportsReasoningEffort := false, supportsUsageInStreaming := false }

/-- The vendor-supplied max-completion value of a raw record
(model.top_provider?.max_completion_tokens). -/
def providedMax (m : KiloGatewayModel) : Option ℚ :=
  m.top_provider.bind TopProvider.max_completion_tokens

/-- resolveContextWindow: first truthy positive integer among the top-level
context length and the provider context length, else 128000. -/
def resolveContextWindow (m : KiloGatewayModel) : ℕ :=
  match numTruthy (asPositiveInt m.context_length) with
  | some n => n
  | none =>
    match numTruthy (asPositiveInt (m.top_provider.bind TopProvider.context_length)) with
    | some n => n
    | none => 128000

/-- resolveMaxTokens: the truthy positive integer derived from the vendor
max-completion value if present, else the clamped quarter-context estimate. -/
def resolveMaxTokens (m : KiloGatewayModel) (contextWindow : ℕ) : ℕ :=
  match numTruthy (asPositiveInt (providedMax m)) with
  | some n => n
  | none => max 4096 (min (contextWindow / 4) 65536)

/-- resolveInputModalities: text plus image when the vendor advertises an
image input modality. -/
def resolveInputModalities (m : KiloGatewayModel) : List InputModality :=
  let input := (m.architecture.bind Architecture.input_modalities).getD []
  if input.any (fun s => s == "image") then
    [InputModality.text, InputModality.image]
  else
    [InputModality.text]

/-- supportsReasoning: the supported-parameter list contains one of the two
reasoning markers. -/
def supportsReasoning (m : KiloGatewayModel) : Bool :=
  let params := m.supported_parameters.getD []
  params.contains "reasoning" || params.contains "include_reasoning"

/-- toModelConfig: normalize one raw record; records whose id is absent or
blank after trimming are rejected. -/
def toModelConfig (m : KiloGatewayModel) : Option KiloModelConfig :=
  match m.id with
  | none => none
  | some rawId =>
    let id := jsTrim rawId
    if id = "" then none
    else
      let contextWindow := resolveContextWindow m
      let maxTokens := resolveMaxTokens m contextWindow
      some
        { id := id
          name := match m.name with
            | none => id
            | some n => if jsTrim n = "" then id else jsTrim n
          reasoning := supportsReasoning m
          input := resolveInputModalities m
          cost := { input := 0, output := 0, cacheRead := 0, cacheWrite := 0 }
          contextWindow := contextWindow
          maxTokens := maxTokens
          compat := DEFAULT_COMPAT }

/-- Number.MAX_SAFE_INTEGER, the sentinel used for a missing preferred
index. -/
def maxSafeInteger : ℕ := 2 ^ 53 - 1

/-- The primary sort key of the raw-record comparator:
asPositiveInt(preferredIndex) ?? Number.MAX_SAFE_INTEGER.  The nullish
operator does not drop 0, so only an absent or non-positive index falls to
the sentinel. -/
def sortKey (m : KiloGatewayModel) : ℕ :=
  (asPositiveInt m.preferredIndex).getD maxSafeInteger

/-- The tie-break string of the raw-record comparator:
a.name || a.id || "" with JavaScript string truthiness. -/
def nameKey (m : KiloGatewayModel) : String :=
  ((jsStr m.name).orElse fun _ => jsStr m.id).getD ""

/-- The raw-record comparator as a total preorder: a sorts no later than b
iff its key is smaller, or the keys tie and its name compares no later. -/
def rawLe (a b : KiloGatewayModel) : Prop :=
  sortKey a < sortKey b ∨
    (sortKey a = sortKey b ∧ charLe (nameKey a).toList (nameKey b).toList = true)

instance : DecidableRel rawLe := fun _ _ =>
  inferInstanceAs (Decidable (_ ∨ _ ∧ _))

lemma charLe_total : ∀ a b : List Char, charLe a b = true ∨ charLe b a = true
  | [], _ => Or.inl rfl
  | _ :: _, [] => Or.inr rfl
  | c :: cs, d :: ds => by
    by_cases h1 : c.toNat < d.toNat
    · exact Or.inl (by simp [charLe, h1])
    · by_cases h2 : d.toNat < c.toNat
      · exact Or.inr (by simp [charLe, h2])
      · rcases charLe_total cs ds with h | h
        · exact Or.inl (by simp [charLe, h1, h2, h])
        · exact Or.inr (by simp [charLe, h1, h2, h])

lemma charLe_trans :
    ∀ a b c : List Char, charLe a b = true → charLe b c = true →
      charLe a c = true
  | [], _, _, _, _ => rfl
  | _ :: _, [], _, h1, _ => by simp [charLe] at h1
  | _ :: _, _ :: _, [], _, h2 => by simp [charLe] at h2
  | x :: xs, y :: ys, z :: zs, h1, h2 => by
    simp only [charLe] at h1 h2 ⊢
    by_cases hxy : x.toNat < y.toNat
    · by_cases hyz : y.toNat < z.toNat
      · simp [show x.toNat < z.toNat by omega]
      · by_cases hzy : z.toNat < y.toNat
        · simp [hyz, hzy] at h2
        · simp [show x.toNat < z.toNat by omega]
    · by_cases hyx : y.toNat < x.toNat
      · simp [hxy, hyx] at h1
      · by_cases hyz : y.toNat < z.toNat
        · simp [show x.toNat < z.toNat by omega]
        · by_cases hzy : z.toNat < y.toNat
          · simp [hyz, hzy] at h2
          · have hxz : ¬ x.toNat < z.toNat := by omega
            have hzx : ¬ z.toNat < x.toNat := by omega
            simp [hxy, hyx] at h1
            simp [hyz, hzy] at h2
            simp [hxz, hzx]
            exact charLe_trans xs ys zs h1 h2

instance : IsTotal KiloGatewayModel rawLe where
  total a b := by
    rcases lt_trichotomy (sortKey a) (sortKey b) with h | h | h
    · exact Or.inl (Or.inl h)
    · rcases charLe_total (nameKey a).toList (nameKey b).toList with hn | hn
      · exact Or.inl (Or.inr ⟨h, hn⟩)
      · exact Or.inr (Or.inr ⟨h.symm, hn⟩)
    · exact Or.inr (Or.inl h)

instance : IsTrans KiloGatewayModel rawLe where
  trans a b c hab hbc := by
    rcases hab with hab | ⟨hab, hna⟩
    · rcases hbc with hbc | ⟨hbc, _⟩
      · exact Or.inl (hab.trans hbc)
      · exact Or.inl (hbc ▸ hab)
    · rcases hbc with hbc | ⟨hbc, hnb⟩
      · exact Or.inl (hab ▸ hbc)
      · exact Or.inr ⟨hab.trans hbc, charLe_trans _ _ _ hna hnb⟩

/-- The stable pre-normalization sort of the raw model list (the
Array.prototype.sort call in fetchKiloModels; JavaScript sort is stable and
this comparator is a consistent total preorder, so its result is the stable
sorted permutation). -/
def kiloSortRaw (l : List KiloGatewayModel) : List KiloGatewayModel :=
  l.insertionSort rawLe

/-- The HTTP response of the gateway models endpoint: success flag, status
code, and the optional data array of the JSON payload. -/
structure GatewayResponse where
  ok : Bool
  status : ℕ
  data : Option (List KiloGatewayModel)
deriving DecidableEq, Repr

/-- fetchKiloModels as a function of the gateway response: fail on a
non-success status, sort, normalize, drop rejected records, and fail when
zero valid records remain. -/
def fetchKiloModels (resp : GatewayResponse) :
    Except String (List KiloModelConfig) :=
  if resp.ok = false then
    Except.error ("failed to fetch models (" ++ toString resp.status ++ ")")
  else
    let models := (kiloSortRaw (resp.data.getD [])).filterMap toModelConfig
    if models.isEmpty then Except.error "gateway returned zero models"
    else Except.ok models

/-- FALLBACK_MODELS: the static hand-curated fallback catalog of the
part_005 variant of the extension. -/
def FALLBACK_MODELS : List KiloModelConfig :=
  [ { id := "kilo/auto", name := "Kilo: Auto", reasoning := true,
      input := [InputModality.text, InputModality.image],
      cost := { input := 0, output := 0, cacheRead := 0, cacheWrite := 0 },
      contextWindow := 200000, maxTokens := 64000, compat := DEFAULT_COMPAT },
    { id := "anthropic/claude-sonnet-4.5", name := "Anthropic: Claude Sonnet 4.5",
      reasoning := true,
      input := [InputModality.text, InputModality.image],
      cost := { input := 0, output := 0, cacheRead := 0, cacheWrite := 0 },
      contextWindow := 200000, maxTokens := 64000, compat := DEFAULT_COMPAT },
    { id := "openai/gpt-5.2-codex", name := "OpenAI: GPT-5.2 Codex",
      reasoning := true,
      input := [InputModality.text, InputModality.image],
      cost := { input := 0, output := 0, cacheRead := 0, cacheWrite := 0 },
      contextWindow := 400000, maxTokens := 128000, compat := DEFAULT_COMPAT },
    { id := "google/gemini-3-flash-preview", name := "Google: Gemini 3 Flash Preview",
      reasoning := true,
      input := [InputModality.text, InputModality.image],
      cost := { input := 0, output := 0, cacheRead := 0, cacheWrite := 0 },
      contextWindow := 1048576, maxTokens := 65535, compat := DEFAULT_COMPAT },
    { id := "minimax/minimax-m2.5:free", name := "MiniMax: M2.5 (free)",
      reasoning := true,
      input := [InputModality.text],
      cost := { input := 0, output := 0, cacheRead := 0, cacheWrite := 0 },
      contextWindow := 204800, maxTokens := 131072, compat := DEFAULT_COMPAT } ]

/-- The argument record of a registerProvider call. -/
structure RegisteredProvider where
  name : String
  baseUrl : String
  apiKey : String
  api : String
  models : List KiloModelConfig
deriving DecidableEq, Repr

/-- registerKiloProvider: the fixed registration record built around a
catalog. -/
def registerKiloProvider (models : List KiloModelConfig) : RegisteredProvider :=
  { name := "kilo-code", baseUrl := "https://api.kilo.ai/api/gateway",
    apiKey := "KILO_API_KEY", api := "openai-completions", models := models }

/-- The initial-load path of the part_005 extension entry: start from the
fallback catalog, overwrite it with the fetched catalog when the fetch
succeeds, and always register the result (the catch swallows the error). -/
def initialLoad (resp : GatewayResponse) : RegisteredProvider :=
  registerKiloProvider
    (match fetchKiloModels resp with
     | Except.ok ms => ms
     | Except.error _ => FALLBACK_MODELS)

/-- The outcome reported by the kilo-refresh-models handler. -/
inductive RefreshOutcome where
  | loaded (count : ℕ)
  | failed (message : String)
deriving DecidableEq, Repr

/-- The kilo-refresh-models handler: on success re-register the refreshed
catalog and report the count; on failure keep the previously published
catalog and report the error. -/
def refreshStep (resp : GatewayResponse) (published : List KiloModelConfig) :
    List KiloModelConfig × RefreshOutcome :=
  match fetchKiloModels resp with
  | Except.ok ms => (ms, RefreshOutcome.loaded ms.length)
  | Except.error e =>
    (published, RefreshOutcome.failed ("Failed to refresh Kilo models: " ++ e))

/-- Severity classification of a quota row (the widget color: error,
warning, or plain text). -/
inductive Severity where
  | critical
  | warning
  | normal
deriving DecidableEq, Repr

/-- The severity computed by the antigravity quota widget renderer from the
optional exhausted flag and the optional remaining fraction of a quota
row. -/
def antigravitySeverity (isExhausted : Option Bool) (remainingVal : Option ℚ) :
    Severity :=
  if isExhausted.getD false
      || remainingVal.any (fun f => decide (f < mkRat 1 10)) then
    Severity.critical
  else if remainingVal.any (fun f => decide (f < mkRat 1 2)) then
    Severity.warning
  else
    Severity.normal

/-- The severity computed by the copilot quota widget renderer from the
percent_remaining field of a quota snapshot. -/
def copilotSeverity (percent_remaining : ℚ) : Severity :=
  if percent_remaining < 10 then Severity.critical
  else if percent_remaining < 50 then Severity.warning
  else Severity.normal

/-- Spec-side severity of a remaining fraction f with an exhausted flag:
exhausted or f below one tenth is critical, f below one half is warning,
anything else is normal. -/
def severitySpec (exhausted : Bool) (f : ℚ) : Severity :=
  if exhausted then Severity.critical
  else if f < mkRat 1 10 then Severity.critical
  else if f < mkRat 1 2 then Severity.warning
  else Severity.normal

/-- The quotaInfo object of an antigravity model. -/
structure QuotaInfo where
  remainingFraction : Option ℚ
  resetTime : Option String
  isExhausted : Option Bool
deriving DecidableEq, Repr

/-- One antigravity model entry (interface ModelInfo). -/
structure AgModelInfo where
  quotaInfo : Option QuotaInfo
deriving DecidableEq, Repr

/-- One group of an agent model sort (interface ModelSortGroup). -/
structure ModelSortGroup where
  modelIds : Option (List String)
deriving DecidableEq, Repr

/-- One agent model sort (interface ModelSort). -/
structure ModelSort where
  groups : Option (List ModelSortGroup)
deriving DecidableEq, Repr

/-- The recommended id set of the antigravity quota widget:
agentModelSorts?.[0]?.groups?.flatMap(g => g.modelIds || []) || []. -/
def recommendedIds (sorts : Option (List ModelSort)) : List String :=
  match sorts with
  | none => []
  | some ss =>
    match ss.head? with
    | none => []
    | some s0 =>
      match s0.groups with
      | none => []
      | some gs => (gs.map (fun g => g.modelIds.getD [])).flatten

/-- The sort key of a quota row: its remaining fraction, or 1 when
undefined. -/
def quotaFraction (info : AgModelInfo) : ℚ :=
  (info.quotaInfo.bind QuotaInfo.remainingFraction).getD 1

/-- The filter of the antigravity quota widget: a row is kept when it has
quota info and is either recommended or has a defined remaining fraction
below 1. -/
def includeRow (rec : List String) (p : String × AgModelInfo) : Bool :=
  match p.2.quotaInfo with
  | none => false
  | some qi =>
    rec.contains p.1 || qi.remainingFraction.any (fun f => decide (f < 1))

/-- The row order of the antigravity quota widget: ascending remaining
fraction, undefined treated as 1. -/
def fracLe (a b : String × AgModelInfo) : Prop :=
  quotaFraction a.2 ≤ quotaFraction b.2

instance : DecidableRel fracLe := fun _ _ =>
  inferInstanceAs (Decidable (_ ≤ _))

instance : IsTotal (String × AgModelInfo) fracLe :=
  ⟨fun a b => le_total (quotaFraction a.2) (quotaFraction b.2)⟩

instance : IsTrans (String × AgModelInfo) fracLe :=
  ⟨fun _ _ _ hab hbc => le_trans hab hbc⟩

/-- relevantModels: the filtered quota rows sorted ascending by remaining
fraction (the filter and stable sort of the antigravity widget renderer,
with the model map taken in its entry order). -/
def relevantModels (models : List (String × AgModelInfo))
    (sorts : Option (List ModelSort)) : List (String × AgModelInfo) :=
  (models.filter (includeRow (recommendedIds sorts))).insertionSort fracLe

/-- An event on the transient quota widget slot: a command invocation shows
a fresh display, a fired timer clears the slot unconditionally. -/
inductive UiEvent where
  | show (invocation : ℕ)
  | clear
deriving DecidableEq, Repr

/-- The event list generated by a schedule of command invocations (times in
milliseconds): each invocation shows its display at its own time and leaves
an uncancelled timer that clears the widget slot 60000 ms later.  Events are
ordered by time; the sort is stable, so a show listed before a clear at the
same instant is applied first. -/
def widgetEvents (invocations : List ℕ) : List (ℕ × UiEvent) :=
  (invocations.map (fun t => (t, UiEvent.show t)) ++
    invocations.map (fun t => (t + 60000, UiEvent.clear))).insertionSort
    (fun a b => a.1 ≤ b.1)

/-- The content of the widget slot at time T: the result of applying, in
time order, every show and every timer clear that has happened by T.  The
value is the invocation time of the display currently shown, or none when
the slot is clear. -/
def widgetAt (invocations : List ℕ) (T : ℕ) : Option ℕ :=
  ((widgetEvents invocations).filter (fun e => e.1 ≤ T)).foldl
    (fun _ e =>
      match e.2 with
      | UiEvent.show t => some t
      | UiEvent.clear => none)
    none

/-- The exponent suffix of a JavaScript parseFloat literal: optional sign
and digits; a malformed exponent is ignored. -/
def parseExpPart (rest : List Char) : ℤ :=
  let signed : ℤ × List Char :=
    match rest with
    | '-' :: r => (-1, r)
    | '+' :: r => (1, r)
    | r => (1, r)
  let ds := signed.2.takeWhile Char.isDigit
  if ds.isEmpty then 0
  else signed.1 * (ds.foldl (fun n c => 10 * n + (c.toNat - 48)) 0 : ℕ)

/-- Model of JavaScript parseFloat returning a finite value: skip leading
whitespace, read an optional sign, a decimal mantissa with at least one
digit, and an optional exponent; return none when no number can be read
(NaN) or the literal is Infinity. -/
def jsParseFloat (s : String) : Option ℚ :=
  let cs := s.toList.dropWhile Char.isWhitespace
  let signed : ℤ × List Char :=
    match cs with
    | '-' :: rest => (-1, rest)
    | '+' :: rest => (1, rest)
    | rest => (1, rest)
  if signed.2.take 8 = "Infinity".toList then none
  else
    let intDigits := signed.2.takeWhile Char.isDigit
    let afterInt := signed.2.drop intDigits.length
    let fracDigits :=
      match afterInt with
      | '.' :: rest => rest.takeWhile Char.isDigit
      | _ => []
    let afterFrac :=
      match afterInt with
      | '.' :: rest => rest.drop fracDigits.length
      | _ => afterInt
    if intDigits.isEmpty && fracDigits.isEmpty then none
    else
      let intVal : ℕ := intDigits.foldl (fun n c => 10 * n + (c.toNat - 48)) 0
      let fracVal : ℕ := fracDigits.foldl (fun n c => 10 * n + (c.toNat - 48)) 0
      let expVal : ℤ :=
        match afterFrac with
        | 'e' :: rest => parseExpPart rest
        | 'E' :: rest => parseExpPart rest
        | _ => 0
      let num : ℤ := signed.1 * ((intVal : ℤ) * 10 ^ fracDigits.length + fracVal)
      if 0 ≤ expVal then
        some (mkRat (num * 10 ^ expVal.toNat) (10 ^ fracDigits.length))
      else
        some (mkRat num (10 ^ fracDigits.length * 10 ^ (-expVal).toNat))

/-- The finite numeric reading of one pricing value: a number is itself, a
string goes through parseFloat; none means not a finite number. -/
def pricingValueNum : PricingValue → Option ℚ
  | PricingValue.str s => jsParseFloat s
  | PricingValue.num q => some q

/-- The per-field check of isFreeModel: an undefined value is skipped, a
defined one must read as the finite number 0. -/
def pricingFieldFree (ov : Option PricingValue) : Bool :=
  match ov with
  | none => true
  | some v =>
    match pricingValueNum v with
    | none => false
    | some q => decide (q = 0)

/-- isFreeModel from the part_006 variant: false without a pricing object;
otherwise every defined pricing field must read as the finite number 0. -/
def isFreeModel (m : KiloGatewayModel) : Bool :=
  match m.pricing with
  | none => false
  | some fields => fields.all fun kv => pricingFieldFree kv.2

/-- Spec-side free-model predicate: a pricing object is present and every
defined pricing field parses to a finite number exactly equal to 0. -/
def FreeSpec (m : KiloGatewayModel) : Prop :=
  ∃ fields, m.pricing = some fields ∧
    ∀ kv ∈ fields, ∀ v, kv.2 = some v → pricingValueNum v = some 0

/-- Spec-level maxTokens rule: a supplied max-completion value whose floor
is at least 1 is used as its floor with no clamping; otherwise the
quarter-context estimate clamped into the 4096 to 65536 band. -/
def resolveMaxTokensSpec (supplied : Option ℚ) (contextWindow : ℕ) : ℕ :=
  match supplied with
  | some v =>
    if 1 ≤ ⌊v⌋ then ⌊v⌋.toNat
    else max 4096 (min (contextWindow / 4) 65536)
  | none => max 4096 (min (contextWindow / 4) 65536)

/-- A raw record whose id is only whitespace. -/
def mBlank : KiloGatewayModel := { emptyRaw with id := some "   " }

/-- A raw record with only an id; every numeric field defaults. -/
def m128 : KiloGatewayModel := { emptyRaw with id := some "m" }

/-- The normalized form of m128. -/
def cfg128 : KiloModelConfig :=
  { id := "m"
    name := "m"
    reasoning := false
    input := [InputModality.text]
    cost := { input := 0, output := 0, cacheRead := 0, cacheWrite := 0 }
    contextWindow := 128000
    maxTokens := 32000
    compat := DEFAULT_COMPAT }

/-- A raw record with a 2000-token context window and no vendor
max-completion value. -/
def cex2000 : KiloGatewayModel :=
  { emptyRaw with
    id := some "m"
    context_length := some 2000 }

/-- The normalized form of cex2000: the clamped estimate 4096 exceeds the
2000-token context window. -/
def cfg2000 : KiloModelConfig :=
  { id := "m"
    name := "m"
    reasoning := false
    input := [InputModality.text]
    cost := { input := 0, output := 0, cacheRead := 0, cacheWrite := 0 }
    contextWindow := 2000
    maxTokens := 4096
    compat := DEFAULT_COMPAT }

/-- A raw record whose vendor supplies the fractional max-completion value
7.5. -/
def cexMax : KiloGatewayModel :=
  { emptyRaw with
    id := some "m"
    top_provider :=
      some { context_length := none, max_completion_tokens := some (mkRat 15 2) } }

/-- A gateway response that failed with HTTP 500. -/
def resp500 : GatewayResponse := { ok := false, status := 500, data := none }

/-- A gateway response that failed with HTTP 502, used for the refresh
path. -/
def resp502 : GatewayResponse := { ok := false, status := 502, data := none }

/-- A successful gateway response whose non-empty data normalizes to zero
valid records (a blank id and an absent id). -/
def respBlank : GatewayResponse :=
  { ok := true, status := 200, data := some [mBlank, emptyRaw] }

/-- The antigravity quota example: A at 0.8, B at 0.2, C with an undefined
fraction. -/
def exampleModels : List (String × AgModelInfo) :=
  [("A", { quotaInfo := some { remainingFraction := some (mkRat 8 10), resetTime := none, isExhausted := none } }),
   ("B", { quotaInfo := some { remainingFraction := some (mkRat 2 10), resetTime := none, isExhausted := none } }),
   ("C", { quotaInfo := some { remainingFraction := none, resetTime := none, isExhausted := none } })]

/-- The agent model sorts recommending only C. -/
def exampleSorts : Option (List ModelSort) :=
  some [{ groups := some [{ modelIds := some ["C"] }] }]

lemma numTruthy_eq_some {o : Option ℕ} {n : ℕ} (h : numTruthy o = some n) :
    o = some n ∧ n ≠ 0 := by
  cases o with
  | none => simp [numTruthy] at h
  | some k =>
    cases k with
    | zero => simp [numTruthy] at h
    | succ k =>
      simp only [numTruthy] at h
      exact ⟨h, by rcases h with ⟨rfl⟩; omega⟩

lemma asPositiveInt_eq_some {ov : Option ℚ} {n : ℕ}
    (h : asPositiveInt ov = some n) :
    ∃ v, ov = some v ∧ 0 < v ∧ n = ⌊v⌋.toNat := by
  cases ov with
  | none => simp [asPositiveInt] at h
  | some v =>
    by_cases hv : v ≤ 0
    · simp [asPositiveInt, hv] at h
    · refine ⟨v, rfl, not_le.mp hv, ?_⟩
      simp [asPositiveInt, hv] at h
      exact h.symm

/-- C1 (counterexample): the vendor supplies the positive max-completion
value 7.5, yet the computed maxTokens is 7, not the supplied value
verbatim; a provider-supplied positive value is floored, and a positive
value below 1 would even fall through to the estimate. -/
theorem resolveMaxTokens_not_verbatim :
    providedMax cexMax = some (mkRat 15 2) ∧
    0 < mkRat 15 2 ∧
    resolveMaxTokens cexMax (resolveContextWindow cexMax) = 7 ∧
    ((7 : ℚ) ≠ mkRat 15 2) := by
  refine ⟨rfl, by decide, by decide, by decide⟩

/-- C1 (amended): resolveMaxTokens uses the floor of the vendor
max-completion value, unclamped, whenever that floor is at least 1 (for an
integer-valued supply this is the value verbatim); otherwise — no supplied
value, a non-positive one, or one below 1 — it is the quarter-context
estimate clamped into 4096..65536, giving 4096 at contextWindow 2000, 65536
at 2000000 and 50000 at 200000. -/
theorem resolveMaxTokens_amended (m : KiloGatewayModel) (cw : ℕ) :
    resolveMaxTokens m cw = resolveMaxTokensSpec (providedMax m) cw ∧
    resolveMaxTokensSpec none 2000 = 4096 ∧
    resolveMaxTokensSpec none 2000000 = 65536 ∧
    resolveMaxTokensSpec none 200000 = 50000 := by
  refine ⟨?_, by decide, by decide, by decide⟩
  cases hpm : providedMax m with
  | none => simp [resolveMaxTokens, resolveMaxTokensSpec, asPositiveInt, numTruthy, hpm]
  | some v =>
    by_cases hv : v ≤ 0
    · have hf : ⌊v⌋ ≤ 0 := by
        have := Int.floor_le_floor (α := ℚ) hv
        simpa using this
      simp [resolveMaxTokens, resolveMaxTokensSpec, asPositiveInt, numTruthy,
        hpm, hv, show ¬ (1 : ℤ) ≤ ⌊v⌋ by omega]
    · have h0 : (0 : ℤ) ≤ ⌊v⌋ := Int.floor_nonneg.mpr (not_le.mp hv).le
      by_cases h1 : (1 : ℤ) ≤ ⌊v⌋
      · have hk : ∃ k, ⌊v⌋.toNat = k + 1 := by
          refine ⟨⌊v⌋.toNat - 1, ?_⟩
          omega
        rcases hk with ⟨k, hk⟩
        simp [resolveMaxTokens, resolveMaxTokensSpec, asPositiveInt, numTruthy,
          hpm, hv, h1, hk]
      · have hk : ⌊v⌋.toNat = 0 := by omega
        simp [resolveMaxTokens, resolveMaxTokensSpec, asPositiveInt, numTruthy,
          hpm, hv, h1, hk]

/-- C2 (counterexample): the record with context_length 2000 and no vendor
max-completion value normalizes to contextWindow 2000 and maxTokens 4096,
so maxTokens exceeds contextWindow. -/
theorem maxTokens_can_exceed_contextWindow :
    toModelConfig cex2000 = some cfg2000 ∧
    cfg2000.contextWindow < cfg2000.maxTokens := by
  exact ⟨by decide, by decide⟩

/-- C2 (amended): every ModelConfig produced by the normalizer has positive
maxTokens, unconditionally; and maxTokens is at most contextWindow provided
contextWindow is at least 4096 and any vendor-supplied max-completion value
floors to at most contextWindow. -/
theorem toModelConfig_maxTokens_amended (m : KiloGatewayModel)
    (cfg : KiloModelConfig) (h : toModelConfig m = some cfg) :
    0 < cfg.maxTokens ∧
    (4096 ≤ cfg.contextWindow →
      (∀ v : ℚ, providedMax m = some v → ⌊v⌋.toNat ≤ cfg.contextWindow) →
      cfg.maxTokens ≤ cfg.contextWindow) := by
  have hfields : cfg.contextWindow = resolveContextWindow m ∧
      cfg.maxTokens = resolveMaxTokens m (resolveContextWindow m) := by
    cases hid : m.id with
    | none => simp [toModelConfig, hid] at h
    | some rawId =>
      by_cases he : jsTrim rawId = ""
      · simp [toModelConfig, hid, he] at h
      · simp only [toModelConfig, hid, he, if_neg, ite_false] at h
        cases h
        exact ⟨rfl, rfl⟩
  rcases hfields with ⟨hcw2, hmt⟩
  rw [hmt, hcw2]
  cases hnt : numTruthy (asPositiveInt (providedMax m)) with
  | none =>
    have hres : resolveMaxTokens m (resolveContextWindow m) =
        max 4096 (min (resolveContextWindow m / 4) 65536) := by
      rw [resolveMaxTokens, hnt]
    rw [hres]
    constructor
    · exact lt_of_lt_of_le (by norm_num) (le_max_left _ _)
    · intro hcw _
      have hest : min (resolveContextWindow m / 4) 65536 ≤ resolveContextWindow m :=
        le_trans (min_le_left _ _) (Nat.div_le_self _ _)
      exact max_le hcw hest
  | some n =>
    have hres : resolveMaxTokens m (resolveContextWindow m) = n := by
      rw [resolveMaxTokens, hnt]
    rw [hres]
    rcases numTruthy_eq_some hnt with ⟨hsome, hn0⟩
    rcases asPositiveInt_eq_some hsome with ⟨v, hv, _, hfloor⟩
    constructor
    · omega
    · intro _ hpm
      have h2 := hpm v hv
      omega

/-- Witness for the amended C2 statement at the concrete record m128. -/
theorem toModelConfig_maxTokens_amended_witness :
    0 < cfg128.maxTokens ∧
    (4096 ≤ cfg128.contextWindow →
      (∀ v : ℚ, providedMax m128 = some v → ⌊v⌋.toNat ≤ cfg128.contextWindow) →
      cfg128.maxTokens ≤ cfg128.contextWindow) :=
  toModelConfig_maxTokens_amended m128 cfg128 (by decide)

/-- C3: when the gateway fetch fails on initial load, the part_005 entry
point still registers the provider and the published catalog is exactly the
static fallback table, with the same ids and the same count. -/
theorem initialLoad_fallback (resp : GatewayResponse) (h : resp.ok = false) :
    (initialLoad resp).models = FALLBACK_MODELS ∧
    (initialLoad resp).models.map KiloModelConfig.id =
      FALLBACK_MODELS.map KiloModelConfig.id ∧
    (initialLoad resp).models.length = FALLBACK_MODELS.length ∧
    initialLoad resp = registerKiloProvider FALLBACK_MODELS := by
  have hf : fetchKiloModels resp =
      Except.error ("failed to fetch models (" ++ toString resp.status ++ ")") := by
    rw [fetchKiloModels, if_pos h]
  refine ⟨?_, ?_, ?_, ?_⟩ <;> simp [initialLoad, hf, registerKiloProvider]

/-- Witness for C3 at a concrete HTTP 500 response. -/
theorem initialLoad_fallback_witness :
    (initialLoad resp500).models = FALLBACK_MODELS ∧
    (initialLoad resp500).models.map KiloModelConfig.id =
      FALLBACK_MODELS.map KiloModelConfig.id ∧
    (initialLoad resp500).models.length = FALLBACK_MODELS.length ∧
    initialLoad resp500 = registerKiloProvider FALLBACK_MODELS :=
  initialLoad_fallback resp500 rfl

/-- C4: when the gateway fetch fails during the manual refresh command, the
handler leaves the previously published catalog unchanged (no
re-registration, no fallback substitution) and reports the failure. -/
theorem refresh_failure_keeps_catalog (resp : GatewayResponse)
    (published : List KiloModelConfig) (e : String)
    (h : fetchKiloModels resp = Except.error e) :
    refreshStep resp published =
      (published, RefreshOutcome.failed ("Failed to refresh Kilo models: " ++ e)) := by
  rw [refreshStep, h]

/-- Witness for C4 at a concrete HTTP 502 response with the fallback
catalog previously published. -/
theorem refresh_failure_keeps_catalog_witness :
    refreshStep resp502 FALLBACK_MODELS =
      (FALLBACK_MODELS,
        RefreshOutcome.failed
          "Failed to refresh Kilo models: failed to fetch models (502)") :=
  refresh_failure_keeps_catalog resp502 FALLBACK_MODELS
    "failed to fetch models (502)" rfl

/-- C5: both widget renderers classify a defined remaining fraction f with
the same thresholds — critical when exhausted or f is below 0.10, warning
when f is below 0.50, normal otherwise — where the copilot renderer reads
the fraction as a percentage; 0.05 is critical, 0.32 is warning, 0.91 is
normal, and an exhausted row is critical at any fraction. -/
theorem quota_severity_thresholds (f : ℚ) (ex : Option Bool) :
    antigravitySeverity ex (some f) = severitySpec (ex.getD false) f ∧
    copilotSeverity (100 * f) = severitySpec false f ∧
    severitySpec false (mkRat 5 100) = Severity.critical ∧
    severitySpec false (mkRat 32 100) = Severity.warning ∧
    severitySpec false (mkRat 91 100) = Severity.normal ∧
    antigravitySeverity (some true) (some f) = Severity.critical := by
  have h110 : (mkRat 1 10 : ℚ) = 1 / 10 := by
    rw [Rat.mkRat_eq_divInt, Rat.divInt_eq_div]; norm_num
  have h12 : (mkRat 1 2 : ℚ) = 1 / 2 := by
    rw [Rat.mkRat_eq_divInt, Rat.divInt_eq_div]; norm_num
  refine ⟨?_, ?_, by decide, by decide, by decide, ?_⟩
  · by_cases hx : ex.getD false
    · simp [antigravitySeverity, severitySpec, hx]
    · simp only [antigravitySeverity, severitySpec, hx, Bool.false_or,
        Option.any_some, if_false, Bool.false_eq_true]
      by_cases h1 : f < mkRat 1 10
      · simp [h1]
      · by_cases h2 : f < mkRat 1 2
        · simp [h1, h2]
        · simp [h1, h2]
  · rw [copilotSeverity, severitySpec]
    rw [h110, h12]
    by_cases h1 : f < 1 / 10
    · rw [if_pos (by linarith), if_neg (by simp), if_pos h1]
    · by_cases h2 : f < 1 / 2
      · rw [if_neg (by linarith), if_pos (by linarith), if_neg (by simp),
          if_neg h1, if_pos h2]
      · rw [if_neg (by linarith), if_neg (by linarith), if_neg (by simp),
          if_neg h1, if_neg h2]
  · simp [antigravitySeverity]

lemma includeRow_iff (rec : List String) (p : String × AgModelInfo) :
    includeRow rec p = true ↔
      ∃ qi, p.2.quotaInfo = some qi ∧
        (p.1 ∈ rec ∨ ∃ f, qi.remainingFraction = some f ∧ f < 1) := by
  cases hq : p.2.quotaInfo with
  | none => simp [includeRow, hq]
  | some qi =>
    cases hf : qi.remainingFraction with
    | none => simp [includeRow, hq, hf]
    | some f => simp [includeRow, hq, hf]

/-- C6: a row appears in the antigravity quota display iff it has quota
info and is either recommended by the vendor sort groups or has a defined
remaining fraction below 1; the displayed rows are sorted ascending by
remaining fraction with an undefined fraction treated as 1, so the example
with A at 0.8, B at 0.2 and C recommended with an undefined fraction
renders in the order B, A, C. -/
theorem relevantModels_selection_and_order
    (models : List (String × AgModelInfo)) (sorts : Option (List ModelSort)) :
    (∀ p, p ∈ relevantModels models sorts ↔
      p ∈ models ∧ ∃ qi, p.2.quotaInfo = some qi ∧
        (p.1 ∈ recommendedIds sorts ∨
          ∃ f, qi.remainingFraction = some f ∧ f < 1)) ∧
    (relevantModels models sorts).Sorted fracLe ∧
    (relevantModels exampleModels exampleSorts).map Prod.fst = ["B", "A", "C"] := by
  refine ⟨?_, ?_, by decide⟩
  · intro p
    rw [relevantModels, List.mem_insertionSort, List.mem_filter, includeRow_iff]
  · exact List.sorted_insertionSort fracLe _

/-- C7: a raw record whose id is absent or blank after trimming normalizes
to none, and whenever the whole payload normalizes to zero valid records
the fetch never succeeds, even on a non-empty raw payload. -/
theorem blank_id_rejected_and_empty_catalog_fails
    (m : KiloGatewayModel) (resp : GatewayResponse)
    (hm : ∀ s, m.id = some s → jsTrim s = "")
    (hresp : (kiloSortRaw (resp.data.getD [])).filterMap toModelConfig = []) :
    toModelConfig m = none ∧ ∀ ms, fetchKiloModels resp ≠ Except.ok ms := by
  constructor
  · cases hid : m.id with
    | none => simp [toModelConfig, hid]
    | some s => simp [toModelConfig, hid, hm s hid]
  · intro ms hok
    by_cases h : resp.ok = false
    · rw [fetchKiloModels, if_pos h] at hok
      exact absurd hok (by simp)
    · rw [fetchKiloModels, if_neg h] at hok
      simp only [hresp, List.isEmpty_nil, if_pos] at hok
      exact absurd hok (by simp)

/-- Witness for C7: a whitespace-only id is rejected, and the successful
response carrying only that record and an id-less record fails with the
zero-models error. -/
theorem blank_id_rejected_and_empty_catalog_fails_witness :
    toModelConfig mBlank = none ∧
    ∀ ms, fetchKiloModels respBlank ≠ Except.ok ms :=
  blank_id_rejected_and_empty_catalog_fails mBlank respBlank
    (fun s hs => by cases hs; rfl) (by decide)

/-- C8 (code evaluation): one invocation at 0 ms is cleared at exactly
60000 ms; but after invocations at 0 ms and 30000 ms, the uncancelled timer
of the first invocation clears the replacing display at 60000 ms — only
30 seconds into its window — and the slot stays empty up to 89999 ms, where
the claim requires the replacement to live until 90000 ms. -/
theorem widget_timer_divergence :
    widgetAt [0] 59999 = some 0 ∧
    widgetAt [0] 60000 = none ∧
    widgetAt [0, 30000] 30000 = some 30000 ∧
    widgetAt [0, 30000] 59999 = some 30000 ∧
    widgetAt [0, 30000] 60000 = none ∧
    widgetAt [0, 30000] 89999 = none := by
  decide

/-- C9: the pre-normalization sort of raw model records — preferred index
ascending with the max-safe-integer sentinel for a missing index, ties
broken by the name-or-id string — is idempotent. -/
theorem kiloSortRaw_idempotent (l : List KiloGatewayModel) :
    kiloSortRaw (kiloSortRaw l) = kiloSortRaw l := by
  unfold kiloSortRaw
  exact List.Sorted.insertionSort_eq (List.sorted_insertionSort rawLe l)

/-- C10: isFreeModel is false for a record with no pricing object, and true
iff a pricing object is present and every defined pricing field parses to a
finite number equal to 0; an empty pricing object and an only-undefined one
count as free, a non-zero or unparseable field does not. -/
theorem isFreeModel_characterization (m : KiloGatewayModel) :
    (isFreeModel m = true ↔ FreeSpec m) ∧
    isFreeModel emptyRaw = false ∧
    isFreeModel { emptyRaw with pricing := some [] } = true ∧
    isFreeModel { emptyRaw with pricing := some [("prompt", none)] } = true ∧
    isFreeModel { emptyRaw with
      pricing := some [("prompt", some (PricingValue.str "0.5"))] } = false ∧
    isFreeModel { emptyRaw with
      pricing := some [("prompt", some (PricingValue.str "abc"))] } = false := by
  refine ⟨?_, by decide, by decide, by decide, by decide, by decide⟩
  cases hp : m.pricing with
  | none => simp [isFreeModel, FreeSpec, hp]
  | some fields =>
    rw [isFreeModel]
    rw [hp]
    simp only [FreeSpec, hp, Option.some.injEq, exists_eq_left']
    rw [List.all_eq_true]
    constructor
    · intro h kv hkv v hv
      have hb := h kv hkv
      cases hq : pricingValueNum v with
      | none => simp [pricingFieldFree, hv, hq] at hb
      | some q =>
        simp only [pricingFieldFree, hv, hq, decide_eq_true_eq] at hb
        rw [hb]
    · intro h kv hkv
      cases hv : kv.2 with
      | none => simp [pricingFieldFree, hv]
      | some v => simp [pricingFieldFree, hv, h kv hkv v hv]
